import Mathlib

/-!
Verification of the instant-lead-response pipeline (src/app.py).

The pipeline accepts a lead submission, asks an AI provider to classify,
score and draft a reply (process_lead_with_ai), attempts to email the reply
(send_email_response), persists one record (save_lead over a sqlite table),
fires a best-effort Telegram notification (send_telegram_notification) and
returns a success envelope, with any exception from the analysis step turned
into an HTTP 500 error envelope (submit_lead).

Modelling conventions:
* Python exceptions are modelled with Except: a function that can raise
  returns Except String.
* External effects (the Anthropic API call together with the markdown-fence
  stripping and json.loads on its text, SMTP transport, the Telegram
  subprocess, wall-clock durations of each step) are inputs provided by a
  PipelineEnv; the parsed JSON value, when json.loads succeeds, is a Json
  tree.
* The sqlite table is a Store: a list of rows plus the AUTOINCREMENT
  counter.  The CURRENT_TIMESTAMP default of the created_at column is
  modelled as a strictly increasing logical time (the row id), which is the
  monotone store-assigned creation time the schema provides.
* time.time() readings are modelled by giving each pipeline step a duration
  in milliseconds; the elapsed time read at a given program point is the sum
  of the durations of the steps already executed.
-/

/-- A JSON value, as produced by json.loads. -/
inductive Json where
  | null : Json
  | bool (b : Bool) : Json
  | num (n : Int) : Json
  | str (s : String) : Json
  | arr (elems : List Json) : Json
  | obj (fields : List (String × Json)) : Json

/-- Python dict.get(key, default) on a parsed JSON object. -/
def pyGet (fields : List (String × Json)) (key : String) (dflt : Json) : Json :=
  match fields.find? (fun kv => kv.1 == key) with
  | some kv => kv.2
  | none => dflt

/-- Python truthiness of an optional string environment variable
(None and the empty string are falsy), as used by all([...]). -/
def pyTruthy : Option String → Bool
  | none => false
  | some s => !(s == "")

/-- The dict returned by process_lead_with_ai: values taken from the parsed
provider output (dynamically typed, hence Json). -/
structure AiResult where
  intent_classification : Json
  lead_score : Json
  ai_response : Json

/-- Outcome of the provider interaction feeding the parsing code of
process_lead_with_ai: either the client call raised (API error or timeout),
or it returned text whose fence-stripped content json.loads either fails on
(none) or parses to a Json value (some). -/
inductive ProviderCall where
  | apiError (detail : String) : ProviderCall
  | output (parsed : Option Json) : ProviderCall

/-- process_lead_with_ai (src/app.py lines 161-219), from the provider
interaction onwards.  Raises (Except.error) when the key is unset, the
client call raises, json.loads fails, or the parsed value is not a JSON
object (ai_result.get then raises AttributeError).  On a parsed object it
builds the result dict with dict.get defaults: intent defaults to
"unknown", score to 5, response to "" — no validation of present values. -/
def process_lead_with_ai (api_key_set : Bool) (call : ProviderCall) :
    Except String AiResult :=
  if api_key_set = false then
    Except.error "ANTHROPIC_API_KEY not set"
  else
    match call with
    | ProviderCall.apiError d => Except.error d
    | ProviderCall.output none => Except.error "json.loads: JSONDecodeError"
    | ProviderCall.output (some j) =>
      match j with
      | Json.obj fields =>
        Except.ok
          { intent_classification := pyGet fields "intent" (Json.str "unknown")
            lead_score := pyGet fields "score" (Json.num 5)
            ai_response := pyGet fields "response" (Json.str "") }
      | _ => Except.error "AttributeError: object has no attribute get"

/-- send_email_response (src/app.py lines 222-247): False when SMTP_USER or
SMTP_PASSWORD is unset or empty; otherwise True exactly when the SMTP
transaction completes without raising (any exception is caught and resolves
to False). -/
def send_email_response (smtp_user smtp_password : Option String)
    (transport_ok : Bool) : Bool :=
  if pyTruthy smtp_user && pyTruthy smtp_password then transport_ok else false

/-- What happened inside send_telegram_notification; the function returns
None in the source, so callers never observe this. -/
inductive NotifyStatus where
  | skipped : NotifyStatus
  | sent : NotifyStatus
  | failed : NotifyStatus

/-- send_telegram_notification (src/app.py lines 250-273): returns early
when TELEGRAM_CHAT_ID is unset; otherwise runs the subprocess inside a
blanket try/except, so a failure is logged and swallowed, never raised. -/
def send_telegram_notification (chat_id : Option String)
    (subprocess_ok : Bool) : NotifyStatus :=
  match chat_id with
  | none => NotifyStatus.skipped
  | some _ => if subprocess_ok then NotifyStatus.sent else NotifyStatus.failed

/-- LeadSubmission (src/app.py lines 43-49), already past pydantic
validation. -/
structure LeadSubmission where
  name : String
  email : String
  company : String
  message : String
  phone : Option String

/-- The lead_data dict built in submit_lead (src/app.py lines 302-314):
the data of one row before the store assigns id and created_at. -/
structure LeadData where
  timestamp : String
  name : String
  email : String
  company : String
  message : String
  phone : Option String
  lead_score : Json
  intent_classification : Json
  response_time_ms : Nat
  email_sent : Bool
  ai_response : Json

/-- A persisted row of the leads table: the inserted data plus the
store-assigned id and created_at. -/
structure LeadRecord extends LeadData where
  id : Nat
  created_at : Nat

/-- The leads table (src/app.py lines 61-83): rows in insertion order plus
the AUTOINCREMENT counter for the next id. -/
structure Store where
  next_id : Nat
  rows : List LeadRecord

/-- init_db (src/app.py lines 61-83): a fresh table; AUTOINCREMENT ids
start at 1. -/
def init_db : Store := { next_id := 1, rows := [] }

/-- save_lead (src/app.py lines 86-112): INSERT assigns the next
AUTOINCREMENT id, created_at gets the monotone store timestamp (modelled by
the id itself, see the header comment), and the rowid is returned.  The
INSERT is modelled as always succeeding: in the source, binding a JSON
array or object as a column parameter makes sqlite raise — that error path
(and store unavailability generally) is outside this model, so no theorem
here asserts pipeline success for such field values. -/
def save_lead (s : Store) (d : LeadData) : Nat × Store :=
  (s.next_id,
   { next_id := s.next_id + 1
     rows := s.rows ++ [{ toLeadData := d, id := s.next_id, created_at := s.next_id }] })

/-- LeadResponse (src/app.py lines 52-57): the success envelope. -/
structure LeadResponse where
  success : Bool
  message : String
  lead_id : Option Nat
  response_time_ms : Option Nat

/-- What the endpoint returns: the 200 envelope, or the HTTPException
raised with a status code and detail string. -/
inductive SubmitResult where
  | ok (resp : LeadResponse) : SubmitResult
  | httpError (status : Nat) (detail : String) : SubmitResult

/-- The environment of one submit_lead call: configuration, the behaviour of
the three external services, and the wall-clock duration (ms) each step
takes. -/
structure PipelineEnv where
  api_key_set : Bool
  provider : ProviderCall
  smtp_user : Option String
  smtp_password : Option String
  smtp_transport_ok : Bool
  telegram_chat_id : Option String
  telegram_subprocess_ok : Bool
  timestamp : String
  t_analyze : Nat
  t_email : Nat
  t_save : Nat
  t_notify : Nat

/-- submit_lead (src/app.py lines 278-330).  Steps: analyze (an exception
here reaches the blanket except and becomes HTTPException 500), send the
email (never raises, yields a Bool), read the clock — elapsed is the
analyzer and email durations only, since persistence and notification have
not run yet —, build lead_data, insert it, fire the notification (result
discarded), return the envelope. -/
def submit_lead (env : PipelineEnv) (lead : LeadSubmission) (store : Store) :
    SubmitResult × Store :=
  match process_lead_with_ai env.api_key_set env.provider with
  | Except.error e => (SubmitResult.httpError 500 e, store)
  | Except.ok ai =>
    let email_sent :=
      send_email_response env.smtp_user env.smtp_password env.smtp_transport_ok
    let response_time_ms := env.t_analyze + env.t_email
    let lead_data : LeadData :=
      { timestamp := env.timestamp
        name := lead.name
        email := lead.email
        company := lead.company
        message := lead.message
        phone := lead.phone
        lead_score := ai.lead_score
        intent_classification := ai.intent_classification
        response_time_ms := response_time_ms
        email_sent := email_sent
        ai_response := ai.ai_response }
    let saved := save_lead store lead_data
    let _ := send_telegram_notification env.telegram_chat_id env.telegram_subprocess_ok
    (SubmitResult.ok
      { success := true
        message := "Thank you! We have responded to " ++ lead.email ++ " in "
          ++ toString response_time_ms ++ "ms"
        lead_id := some saved.1
        response_time_ms := some response_time_ms },
     saved.2)

/-- A sequence of submissions processed against the same store instance. -/
def run : List (PipelineEnv × LeadSubmission) → Store → List SubmitResult × Store
  | [], s => ([], s)
  | p :: rest, s =>
    let step := submit_lead p.1 p.2 s
    let next := run rest step.2
    (step.1 :: next.1, next.2)

/-- The lead ids of the Accepted outcomes, in order. -/
def acceptedIds (rs : List SubmitResult) : List Nat :=
  rs.filterMap (fun r =>
    match r with
    | SubmitResult.ok resp => resp.lead_id
    | SubmitResult.httpError _ _ => none)

/-- One entry of recent_leads in get_stats: the row reduced to five
fields. -/
structure RecentLead where
  name : String
  company : String
  score : Json
  response_time_ms : Nat
  timestamp : Nat

/-- The projection applied to each row of the recent-leads query. -/
def recentOf (r : LeadRecord) : RecentLead :=
  { name := r.name
    company := r.company
    score := r.lead_score
    response_time_ms := r.response_time_ms
    timestamp := r.created_at }

/-- Insert a row into a list that is sorted by descending key. -/
def insertByDesc (key : LeadRecord → Nat) (x : LeadRecord) :
    List LeadRecord → List LeadRecord
  | [] => [x]
  | y :: ys =>
    if key y ≤ key x then x :: y :: ys else y :: insertByDesc key x ys

/-- Sort rows by descending key (the ORDER BY ... DESC of the recent-leads
query). -/
def sortByDesc (key : LeadRecord → Nat) (l : List LeadRecord) :
    List LeadRecord :=
  l.foldr (insertByDesc key) []

/-- The stats dict returned by get_stats. -/
structure Stats where
  total_leads : Nat
  avg_response_time_ms : Int
  emails_sent : Nat
  email_success_rate : ℚ
  recent_leads : List RecentLead

/-- get_stats (src/app.py lines 115-158): COUNT(*), AVG(response_time_ms)
(NULL coalesced to 0, then truncated by int(); all stored values are
non-negative so truncation is the floor), COUNT of rows with email_sent = 1,
the success rate guarded against division by zero, and the ORDER BY
created_at DESC LIMIT 10 projection. -/
def get_stats (s : Store) : Stats :=
  let total := s.rows.length
  let emails := (s.rows.filter (fun r => r.email_sent)).length
  { total_leads := total
    avg_response_time_ms :=
      if total = 0 then 0
      else Rat.floor ((s.rows.map (fun r => (r.response_time_ms : ℚ))).sum / total)
    emails_sent := emails
    email_success_rate :=
      if total > 0 then (emails : ℚ) / (total : ℚ) * 100 else 0
    recent_leads := ((sortByDesc (fun r => r.created_at) s.rows).take 10).map recentOf }

/-- The intent enumeration fixed by the spec (the five prompt classes plus
"unknown"). -/
def validIntents : List String :=
  ["demo_request", "pricing_inquiry", "support_question", "partnership",
   "general_inquiry", "unknown"]

/-- The table invariant the schema provides: created_at values strictly
increase in insertion order. -/
def CreatedAscending (s : Store) : Prop :=
  List.Pairwise (fun a b => a.created_at < b.created_at) s.rows

/-- Did process_lead_with_ai return without raising? -/
def analysisSucceeds (r : Except String AiResult) : Bool :=
  match r with
  | Except.ok _ => true
  | Except.error _ => false

/-! ### Helper lemmas about one submit_lead call -/

theorem run_cons (p : PipelineEnv × LeadSubmission)
    (ps : List (PipelineEnv × LeadSubmission)) (s : Store) :
    run (p :: ps) s =
      ((submit_lead p.1 p.2 s).1 :: (run ps (submit_lead p.1 p.2 s).2).1,
       (run ps (submit_lead p.1 p.2 s).2).2) := rfl

theorem submit_lead_next_id_le (env : PipelineEnv) (lead : LeadSubmission)
    (s : Store) : s.next_id ≤ ((submit_lead env lead s).2).next_id := by
  rcases hp : process_lead_with_ai env.api_key_set env.provider with e | ai <;>
    simp [submit_lead, hp, save_lead]

theorem submit_lead_ok_id (env : PipelineEnv) (lead : LeadSubmission)
    (s : Store) (resp : LeadResponse)
    (h : (submit_lead env lead s).1 = SubmitResult.ok resp) :
    resp.lead_id = some s.next_id ∧
      ((submit_lead env lead s).2).next_id = s.next_id + 1 := by
  rcases hp : process_lead_with_ai env.api_key_set env.provider with e | ai
  · simp [submit_lead, hp] at h
  · simp only [submit_lead, hp, save_lead] at h ⊢
    injection h with h2
    rw [← h2]
    exact ⟨rfl, trivial⟩

/-! ### Concrete inputs used by witnesses -/

/-- A concrete valid submission. -/
def leadAna : LeadSubmission :=
  { name := "Ana"
    email := "ana@x.com"
    company := "Acme"
    message := "We need a demo ASAP, 500 seats"
    phone := none }

/-- A base environment: API key set, provider returns a well-formed JSON
object, SMTP credentials absent, Telegram destination absent. -/
def envBase : PipelineEnv :=
  { api_key_set := true
    provider := ProviderCall.output (some (Json.obj
      [("intent", Json.str "demo_request"), ("score", Json.num 9),
       ("response", Json.str "Hi Ana...")]))
    smtp_user := none
    smtp_password := none
    smtp_transport_ok := true
    telegram_chat_id := none
    telegram_subprocess_ok := true
    timestamp := "2026-10-12T00:00:00"
    t_analyze := 1200
    t_email := 300
    t_save := 40
    t_notify := 15 }

/-- The base environment with the provider call timing out. -/
def envTimeout : PipelineEnv :=
  { envBase with provider := ProviderCall.apiError "Request timed out" }

/-- The envelope submit_lead returns under envBase on leadAna. -/
def respBase : LeadResponse :=
  { success := true
    message := "Thank you! We have responded to ana@x.com in 1500ms"
    lead_id := some 1
    response_time_ms := some 1500 }

/-! ### Claims -/

/-- Claim C1: for every accepted submission, if the Lead Analyzer call fails
(provider error, timeout, or output text that cannot be parsed as JSON),
submit_lead returns the rejected outcome — the HTTP 500 error envelope —
and the store comes back unchanged, so no LeadRecord is appended. -/
theorem analysis_failure_is_fatal (env : PipelineEnv) (lead : LeadSubmission)
    (store : Store) (e : String)
    (h : process_lead_with_ai env.api_key_set env.provider = Except.error e) :
    submit_lead env lead store = (SubmitResult.httpError 500 e, store) := by
  simp [submit_lead, h]

/-- Witness for C1 at a concrete timed-out environment. -/
theorem analysis_failure_is_fatal_witness :
    submit_lead envTimeout leadAna init_db
      = (SubmitResult.httpError 500 "Request timed out", init_db) :=
  analysis_failure_is_fatal envTimeout leadAna init_db "Request timed out" rfl

/-- Claim C3: when the Analyzer succeeds and the Responder reports failure
(send_email_response returns false, from missing SMTP configuration or a
transport error), submit_lead still returns the success envelope and the
persisted LeadRecord has email_sent = false: Responder failure never aborts
the pipeline. -/
theorem responder_failure_nonfatal (env : PipelineEnv) (lead : LeadSubmission)
    (store : Store) (ai : AiResult)
    (h1 : process_lead_with_ai env.api_key_set env.provider = Except.ok ai)
    (h2 : send_email_response env.smtp_user env.smtp_password
        env.smtp_transport_ok = false) :
    ∃ resp s', submit_lead env lead store = (SubmitResult.ok resp, s') ∧
      resp.success = true ∧
      ∃ r : LeadRecord, s'.rows = store.rows ++ [r] ∧ r.email_sent = false := by
  unfold submit_lead
  rw [h1]
  simp only [h2, save_lead]
  exact ⟨_, _, rfl, rfl, _, rfl, rfl⟩

/-- Witness for C3: SMTP credentials absent, analysis succeeds. -/
theorem responder_failure_nonfatal_witness :
    ∃ resp s', submit_lead envBase leadAna init_db = (SubmitResult.ok resp, s') ∧
      resp.success = true ∧
      ∃ r : LeadRecord, s'.rows = init_db.rows ++ [r] ∧ r.email_sent = false :=
  responder_failure_nonfatal envBase leadAna init_db
    { intent_classification := Json.str "demo_request"
      lead_score := Json.num 9
      ai_response := Json.str "Hi Ana..." } rfl rfl

/-- Claim C6: the Notifier step never affects the Outcome: submit_lead
returns the identical result — same leadId, responseTimeMs and message, and
the same store — for any two behaviours of the Telegram destination and of
the notification subprocess, because every notification failure is swallowed
and its status is discarded. -/
theorem notifier_never_affects_outcome (env : PipelineEnv)
    (c1 c2 : Option String) (b1 b2 : Bool) (lead : LeadSubmission)
    (store : Store) :
    submit_lead { env with telegram_chat_id := c1, telegram_subprocess_ok := b1 }
        lead store
      = submit_lead { env with telegram_chat_id := c2, telegram_subprocess_ok := b2 }
        lead store := rfl

/-- Claim C9: the responseTimeMs of an accepted submission is the elapsed
time through the Analyzer and Responder steps only — it equals the sum of
the durations of those two steps, and the durations of the persistence and
notification steps have no influence on anything submit_lead returns. -/
theorem response_time_excludes_persistence (env : PipelineEnv)
    (lead : LeadSubmission) (store : Store) (resp : LeadResponse)
    (h : (submit_lead env lead store).1 = SubmitResult.ok resp) :
    resp.response_time_ms = some (env.t_analyze + env.t_email) ∧
    ∀ a b : Nat,
      submit_lead { env with t_save := a, t_notify := b } lead store
        = submit_lead env lead store := by
  constructor
  · rcases hp : process_lead_with_ai env.api_key_set env.provider with e | ai
    · simp [submit_lead, hp] at h
    · simp only [submit_lead, hp] at h
      injection h with h2
      rw [← h2]
  · intro a b
    rfl

/-- Witness for C9 at the concrete base environment. -/
theorem response_time_excludes_persistence_witness :
    respBase.response_time_ms = some (envBase.t_analyze + envBase.t_email) :=
  (response_time_excludes_persistence envBase leadAna init_db respBase rfl).1

/-- Claim C10: for every submission that yields the success envelope, the
response_time_ms stored in the appended LeadRecord is exactly the
response_time_ms returned to the caller. -/
theorem persisted_time_equals_returned (env : PipelineEnv)
    (lead : LeadSubmission) (store : Store) (resp : LeadResponse) (s' : Store)
    (h : submit_lead env lead store = (SubmitResult.ok resp, s')) :
    ∃ r : LeadRecord, s'.rows = store.rows ++ [r] ∧
      some r.response_time_ms = resp.response_time_ms := by
  rcases hp : process_lead_with_ai env.api_key_set env.provider with e | ai
  · simp [submit_lead, hp] at h
  · simp only [submit_lead, hp, save_lead] at h
    injection h with h1 h2
    injection h1 with h1
    rw [← h1, ← h2]
    exact ⟨_, rfl, rfl⟩

/-- Witness for C10 at the concrete base environment. -/
theorem persisted_time_equals_returned_witness :
    ∃ r : LeadRecord,
      ((submit_lead envBase leadAna init_db).2).rows = init_db.rows ++ [r] ∧
      some r.response_time_ms = respBase.response_time_ms :=
  persisted_time_equals_returned envBase leadAna init_db respBase
    (submit_lead envBase leadAna init_db).2 rfl

/-! ### Claim C2: strictly increasing identifiers -/

theorem run_fst_cons (p : PipelineEnv × LeadSubmission)
    (ps : List (PipelineEnv × LeadSubmission)) (s : Store) :
    (run (p :: ps) s).1
      = (submit_lead p.1 p.2 s).1 :: (run ps (submit_lead p.1 p.2 s).2).1 := rfl

theorem run_snd_cons (p : PipelineEnv × LeadSubmission)
    (ps : List (PipelineEnv × LeadSubmission)) (s : Store) :
    (run (p :: ps) s).2 = (run ps (submit_lead p.1 p.2 s).2).2 := rfl

theorem run_next_id_le (ps : List (PipelineEnv × LeadSubmission)) (s : Store) :
    s.next_id ≤ ((run ps s).2).next_id := by
  induction ps generalizing s with
  | nil => exact Nat.le_refl _
  | cons p rest ih =>
    rw [run_snd_cons]
    exact Nat.le_trans (submit_lead_next_id_le p.1 p.2 s)
      (ih (submit_lead p.1 p.2 s).2)

theorem run_accepted_ids_bounds (ps : List (PipelineEnv × LeadSubmission))
    (s : Store) :
    ∀ i ∈ acceptedIds ((run ps s).1),
      s.next_id ≤ i ∧ i < ((run ps s).2).next_id := by
  induction ps generalizing s with
  | nil =>
    intro i hi
    simp [run, acceptedIds] at hi
  | cons p rest ih =>
    intro i hi
    rw [run_fst_cons] at hi
    rw [run_snd_cons]
    rcases hr : (submit_lead p.1 p.2 s).1 with resp | ⟨st, dt⟩
    · have hid := submit_lead_ok_id p.1 p.2 s resp hr
      rw [hr] at hi
      simp only [acceptedIds, List.filterMap_cons, hid.1] at hi
      rcases List.mem_cons.mp hi with hhead | htail
      · subst hhead
        refine ⟨Nat.le_refl _, ?_⟩
        have hmono := run_next_id_le rest (submit_lead p.1 p.2 s).2
        omega
      · have hb := ih (submit_lead p.1 p.2 s).2 i htail
        have hle := submit_lead_next_id_le p.1 p.2 s
        exact ⟨Nat.le_trans hle hb.1, hb.2⟩
    · rw [hr] at hi
      simp only [acceptedIds, List.filterMap_cons] at hi
      have hb := ih (submit_lead p.1 p.2 s).2 i hi
      have hle := submit_lead_next_id_le p.1 p.2 s
      exact ⟨Nat.le_trans hle hb.1, hb.2⟩

/-- Claim C2: save_lead assigns ids from a strictly increasing counter, so
over any sequence of submissions processed against the same store instance,
the leadIds of the Accepted outcomes are pairwise strictly increasing: each
leadId of each Accepted outcome is distinct from and greater than the leadIds of
all prior accepted submissions. -/
theorem accepted_ids_strictly_increasing
    (ps : List (PipelineEnv × LeadSubmission)) (s : Store) :
    List.Pairwise (fun a b => a < b) (acceptedIds ((run ps s).1)) := by
  induction ps generalizing s with
  | nil => simp [run, acceptedIds]
  | cons p rest ih =>
    rw [run_fst_cons]
    rcases hr : (submit_lead p.1 p.2 s).1 with resp | ⟨st, dt⟩
    · have hid := submit_lead_ok_id p.1 p.2 s resp hr
      simp only [acceptedIds, List.filterMap_cons, hid.1]
      refine List.Pairwise.cons ?_ (ih (submit_lead p.1 p.2 s).2)
      intro b hb
      have hbound := run_accepted_ids_bounds rest (submit_lead p.1 p.2 s).2 b hb
      omega
    · simp only [acceptedIds, List.filterMap_cons]
      exact ih (submit_lead p.1 p.2 s).2

/-! ### Claims C4 and C5: what the analyzer parsing actually validates -/

/-- Is the parsed JSON value an object (a Python dict)? -/
def isObj : Json → Bool
  | Json.obj _ => true
  | _ => false

/-- Counterexample to claim C4 as stated: the analyzer output is a parsed
JSON object whose intent value "bogus_value" is not in the fixed
enumeration, yet the resulting dict carries intent "bogus_value" — the value
is passed through verbatim, it does not degrade to "unknown". -/
theorem intent_not_validated_counterexample :
    "bogus_value" ∉ validIntents ∧
    process_lead_with_ai true (ProviderCall.output (some (Json.obj
        [("intent", Json.str "bogus_value"), ("score", Json.num 8),
         ("response", Json.str "draft")])))
      = Except.ok
          { intent_classification := Json.str "bogus_value"
            lead_score := Json.num 8
            ai_response := Json.str "draft" } ∧
    "bogus_value" ≠ "unknown" := by
  refine ⟨?_, rfl, ?_⟩ <;> decide

/-- The environment of the spec scenario for C4: the provider returns a
parsed object whose intent value "bogus_value" is outside the enumeration,
with an integer score and a string reply — values the sqlite INSERT binds
without error. -/
def envBogus : PipelineEnv :=
  { envBase with provider := ProviderCall.output (some (Json.obj
      [("intent", Json.str "bogus_value"), ("score", Json.num 8),
       ("response", Json.str "draft")])) }

/-- Claim C4 as amended: on every parsed JSON object the analyze step
succeeds and fills each output field with dict.get — intent degrades to
"unknown" only when the intent key is missing, while a present intent value
is kept verbatim even when it is outside the enumeration; and on the
scenario output itself (string intent "bogus_value", integer score, string
reply) the pipeline still succeeds, persisting the out-of-enumeration
intent verbatim.  (Pipeline success is stated only for this scenario: the
source raises inside save_lead when a field value is a JSON array or
object, since sqlite cannot bind such parameters, and that error path is
outside this model of save_lead.) -/
theorem intent_default_only_when_missing (fields : List (String × Json)) :
    process_lead_with_ai true (ProviderCall.output (some (Json.obj fields)))
      = Except.ok
          { intent_classification := pyGet fields "intent" (Json.str "unknown")
            lead_score := pyGet fields "score" (Json.num 5)
            ai_response := pyGet fields "response" (Json.str "") } ∧
    ∃ resp s', submit_lead envBogus leadAna init_db = (SubmitResult.ok resp, s') ∧
      resp.success = true ∧
      ∃ r : LeadRecord, s'.rows = init_db.rows ++ [r] ∧
        r.intent_classification = Json.str "bogus_value" := by
  refine ⟨rfl, ?_⟩
  exact ⟨_, _, rfl, rfl, _, rfl, rfl⟩

/-- Counterexample to claim C5 as stated: outputs that do not fit the
required shape still yield a successful result — an empty JSON object
(every required field missing) succeeds with fabricated defaults, and a
score of 99, far outside 1-10, is accepted verbatim. -/
theorem no_shape_validation_counterexample :
    analysisSucceeds
        (process_lead_with_ai true (ProviderCall.output (some (Json.obj []))))
      = true ∧
    process_lead_with_ai true (ProviderCall.output (some (Json.obj [])))
      = Except.ok
          { intent_classification := Json.str "unknown"
            lead_score := Json.num 5
            ai_response := Json.str "" } ∧
    analysisSucceeds
        (process_lead_with_ai true (ProviderCall.output (some (Json.obj
          [("intent", Json.str "demo_request"), ("score", Json.num 99),
           ("response", Json.str "Hi")]))))
      = true :=
  ⟨rfl, rfl, rfl⟩

/-- Claim C5 as amended: the analyzer raises exactly when the API key is
unset, the provider call raises, json.loads fails, or the parsed value is
not a JSON object; every parsed JSON object — regardless of which fields
are present, their types, or the score range — yields a successful
result. -/
theorem analysis_error_characterization (api_key_set : Bool)
    (call : ProviderCall) :
    analysisSucceeds (process_lead_with_ai api_key_set call) = false ↔
      (api_key_set = false ∨ (∃ d, call = ProviderCall.apiError d) ∨
       call = ProviderCall.output none ∨
       (∃ j, call = ProviderCall.output (some j) ∧ isObj j = false)) := by
  cases api_key_set with
  | false => simp [process_lead_with_ai, analysisSucceeds]
  | true =>
    cases call with
    | apiError d => simp [process_lead_with_ai, analysisSucceeds]
    | output p =>
      cases p with
      | none => simp [process_lead_with_ai, analysisSucceeds]
      | some j =>
        cases j <;> simp [process_lead_with_ai, analysisSucceeds, isObj]

/-! ### Claim C7: the email success rate -/

/-- Claim C7: get_stats counts emails_sent as exactly the records with
email_sent true, and the success rate is 0 for an empty store and
100 * emails_sent / total_leads otherwise. -/
theorem email_success_rate_formula (s : Store) :
    (get_stats s).emails_sent = (s.rows.filter (fun r => r.email_sent)).length ∧
    (get_stats s).email_success_rate =
      if s.rows.length = 0 then 0
      else 100 * ((s.rows.filter (fun r => r.email_sent)).length : ℚ)
        / (s.rows.length : ℚ) := by
  refine ⟨rfl, ?_⟩
  unfold get_stats
  by_cases h : s.rows.length = 0
  · simp [h]
  · have hpos : 0 < s.rows.length := Nat.pos_of_ne_zero h
    simp only [h, hpos, if_neg, if_pos, if_false]
    ring

/-! ### Claim C8: the recent-leads projection -/

theorem insertByDesc_of_lt (key : LeadRecord → Nat) (x : LeadRecord)
    (l : List LeadRecord) (h : ∀ y ∈ l, key x < key y) :
    insertByDesc key x l = l ++ [x] := by
  induction l with
  | nil => rfl
  | cons y ys ih =>
    have hy : key x < key y := h y (List.mem_cons_self y ys)
    simp only [insertByDesc, if_neg (not_le.mpr hy)]
    rw [ih (fun z hz => h z (List.mem_cons_of_mem y hz))]
    rfl

theorem sortByDesc_of_pairwise_lt (key : LeadRecord → Nat)
    (l : List LeadRecord)
    (h : List.Pairwise (fun a b => key a < key b) l) :
    sortByDesc key l = l.reverse := by
  induction l with
  | nil => rfl
  | cons x xs ih =>
    rcases List.pairwise_cons.mp h with ⟨hx, hxs⟩
    have hstep : sortByDesc key (x :: xs) = insertByDesc key x (sortByDesc key xs) := rfl
    rw [hstep, ih hxs,
      insertByDesc_of_lt key x xs.reverse
        (fun y hy => hx y (List.mem_reverse.mp hy)),
      List.reverse_cons]

/-- Claim C8: recent_leads always has at most 10 entries, and on any store
whose created_at values increase in insertion order (which is what
CURRENT_TIMESTAMP assigns) it consists of exactly the last inserted records
in reverse insertion order, capped at 10, each reduced by recentOf to the
fields name, company, score, response_time_ms and timestamp. -/
theorem recent_leads_last_ten (s : Store) :
    (get_stats s).recent_leads.length ≤ 10 ∧
    (CreatedAscending s →
      (get_stats s).recent_leads = ((s.rows.reverse).take 10).map recentOf) := by
  constructor
  · unfold get_stats
    simp only [List.length_map, List.length_take]
    exact Nat.min_le_left _ _
  · intro h
    unfold get_stats
    rw [sortByDesc_of_pairwise_lt (fun r => r.created_at) s.rows h]

/-- A fixed generic row used to populate the witness store. -/
def demoData (i : Nat) : LeadData :=
  { timestamp := "2026-10-12T00:00:00"
    name := "Lead"
    email := "lead@example.com"
    company := "Acme"
    message := "Hello, we would like more information"
    phone := none
    lead_score := Json.num 7
    intent_classification := Json.str "demo_request"
    response_time_ms := 40 + i
    email_sent := i % 2 == 0
    ai_response := Json.str "Hi" }

/-- Insert n demo rows into a store, oldest first. -/
def saveMany : Nat → Store → Store
  | 0, s => s
  | n + 1, s => saveMany n (save_lead s (demoData n)).2

/-- A store holding 15 inserted records. -/
def store15 : Store := saveMany 15 init_db

/-- Witness for C8 on a store with 15 inserted records: exactly the last 10,
in reverse insertion order. -/
theorem recent_leads_last_ten_witness :
    store15.rows.length = 15 ∧
    (get_stats store15).recent_leads
      = ((store15.rows.reverse).take 10).map recentOf :=
  ⟨rfl, (recent_leads_last_ten store15).2 (by unfold CreatedAscending; decide)⟩
